import Mathlib

/-!
Shallow embedding of the `pubtopdf` repository (files `convert.py`,
`convert_tree_to_pub.py`, `explore_formats.py`) and proofs about it.

The filesystem is modelled by the three queries the program makes
(`os.path.exists`, `os.path.isdir`, `os.listdir`); the external COM
application is modelled by an oracle giving, per attempt, which automation
call raises and what effect `SaveAs` has on the filesystem.  Path
resolution (`Path(...).resolve()`) is modelled as the identity on the
given path strings.
-/

namespace PubToPdf

/-- A filesystem state, recording exactly the queries the program makes:
`os.path.exists`, `os.path.isdir` and `os.listdir`. -/
structure FS where
  pathExists : String → Bool
  pathIsDir : String → Bool
  dirList : String → List String

/-- `os.makedirs(p, exist_ok=True)`: afterwards path `p` exists and is a
directory; listings are untouched (the program never lists a directory it
created this way, since created directories are output directories and the
only listed paths end in `_files`). -/
def FS.mkdirs (fs : FS) (p : String) : FS :=
  { pathExists := fun q => q == p || fs.pathExists q,
    pathIsDir := fun q => q == p || fs.pathIsDir q,
    dirList := fs.dirList }

/-- `validate_html` from `convert.py` (lines 37-61): returns `some message`
where the source raises `RuntimeError(message)`, `none` where it returns
normally.  The source only reads the filesystem, so it is a pure function
of the `FS` state. -/
def validate_html (fs : FS) (htmlPath : String) : Option String :=
  let htmlFile := htmlPath ++ ".htm"
  if !fs.pathExists htmlFile then
    some ("HTML file was not created at " ++ htmlFile)
  else
    let filesDir := htmlPath ++ "_files"
    if !fs.pathExists filesDir || !fs.pathIsDir filesDir then
      some ("Supporting files directory not found at " ++ filesDir)
    else if (fs.dirList filesDir).isEmpty then
      some ("Supporting files directory is empty: " ++ filesDir)
    else
      none

/-- `check_output_exists` from `convert.py` (lines 77-87); the Python
function returns the value of `exists(html) and isdir(dir) and
listdir(dir)` (a list when all pass), modelled by its truthiness.  It only
reads the filesystem. -/
def check_output_exists (fs : FS) (outputBase : String) : Bool :=
  fs.pathExists (outputBase ++ ".htm") && fs.pathIsDir (outputBase ++ "_files")
    && !(fs.dirList (outputBase ++ "_files")).isEmpty

/-- An exception as classified by `convert.py`: COM errors carry an
`excepinfo` tuple (modelled as the list of its entries, with the numeric
`scode` at index 5, as `convert.py` line 190 assumes); any other exception
has no `excepinfo` attribute and only its message string. -/
inductive PubError where
  | comError (excepinfo : List Int)
  | otherError (msg : String)
  deriving DecidableEq

/-- `error_code = e.excepinfo[5] if len(e.excepinfo) > 5 else None`
(`convert.py` line 190). -/
def excepinfoCode (l : List Int) : Option Int :=
  if h : 5 < l.length then some (l.get ⟨5, h⟩) else none

/-- The transient "modal dialog blocking automation" scode
(`convert.py` line 191). -/
def modalDialogCode : Int := -2147221457

/-- The retry decision of `convert.py` lines 188-195: continue retrying only
for a COM error whose extracted code equals `modalDialogCode`; break for any
other code, for a short `excepinfo`, and for errors without `excepinfo`. -/
def retryable : PubError → Bool
  | .comError l => excepinfoCode l == some modalDialogCode
  | .otherError _ => false

/-- Calls made on the external Publisher application (COM automation work),
plus the process-kill recovery step. -/
inductive Ev where
  | dispatch
  | setSecurity
  | openDoc
  | saveAs
  | close
  | quit
  | killProcs
  deriving DecidableEq

/-- Behaviour of the external application during one attempt of
`convert_pub_to_html`: for each automation call, whether it raises (and, for
`SaveAs`, its effect on the filesystem).  `quitErr` is recorded for
completeness; `Quit` is the last call of every cleanup block and its error
is always swallowed, so it influences nothing observable. -/
structure AttemptOracle where
  dispatchErr : Option PubError
  securityErr : Option PubError
  openErr : Option PubError
  saveErr : Option PubError
  saveEff : FS → FS
  closeErr : Option PubError
  quitErr : Option PubError

/-- One `if doc: doc.Close()` / `if publisher: publisher.Quit()` cleanup
block wrapped in a single bare `try`/`except` (`convert.py` lines 180-186
and 200-206): the events are the calls attempted; if `Close` raises, the
exception aborts the block and `Quit` is skipped. -/
def cleanupBlock (docAcq pubAcq closeFails : Bool) : List Ev :=
  if docAcq then
    if closeFails then [Ev.close]
    else Ev.close :: (if pubAcq then [Ev.quit] else [])
  else if pubAcq then [Ev.quit] else []

/-- The first error raised by the automation calls of one attempt
(dispatch, security setter, `Open`, `SaveAs`), if any; `none` means all
four calls succeed and the attempt proceeds to validation. -/
def attemptErr (o : AttemptOracle) : Option PubError :=
  match o.dispatchErr with
  | some e => some e
  | none =>
    match o.securityErr with
    | some e => some e
    | none =>
      match o.openErr with
      | some e => some e
      | none => o.saveErr

/-- `publisher` was assigned a live handle during the attempt. -/
def pubAcquired (o : AttemptOracle) : Bool := o.dispatchErr.isNone

/-- `doc` was assigned a live handle during the attempt. -/
def docAcquired (o : AttemptOracle) : Bool :=
  o.dispatchErr.isNone && o.securityErr.isNone && o.openErr.isNone

/-- The body of one iteration of the retry loop of `convert_pub_to_html`
(`convert.py` lines 128-206), excluding the loop-level retry decision:
returns the raised error (`none` on success), the filesystem afterwards,
and the list of external calls made.  On an exception the cleanup block
runs twice (once in the `except` handler, once in `finally`); on success
only the `finally` block runs. -/
def runAttempt (o : AttemptOracle) (fs : FS) (outputBase : String) :
    Option PubError × FS × List Ev :=
  match o.dispatchErr with
  | some e => (some e, fs, [Ev.dispatch])
  | none =>
    match o.securityErr with
    | some e =>
        (some e, fs, [Ev.dispatch, Ev.setSecurity]
          ++ cleanupBlock false true o.closeErr.isSome
          ++ cleanupBlock false true o.closeErr.isSome)
    | none =>
      match o.openErr with
      | some e =>
          (some e, fs, [Ev.dispatch, Ev.setSecurity, Ev.openDoc]
            ++ cleanupBlock false true o.closeErr.isSome
            ++ cleanupBlock false true o.closeErr.isSome)
      | none =>
        match o.saveErr with
        | some e =>
            (some e, fs, [Ev.dispatch, Ev.setSecurity, Ev.openDoc, Ev.saveAs]
              ++ cleanupBlock true true o.closeErr.isSome
              ++ cleanupBlock true true o.closeErr.isSome)
        | none =>
          let fs2 := o.saveEff fs
          match validate_html fs2 outputBase with
          | some msg =>
              (some (PubError.otherError msg), fs2,
                [Ev.dispatch, Ev.setSecurity, Ev.openDoc, Ev.saveAs]
                  ++ cleanupBlock true true o.closeErr.isSome
                  ++ cleanupBlock true true o.closeErr.isSome)
          | none =>
              (none, fs2,
                [Ev.dispatch, Ev.setSecurity, Ev.openDoc, Ev.saveAs]
                  ++ cleanupBlock true true o.closeErr.isSome)

/-- Index of the last occurrence of `c`, if any. -/
def lastIndexOfChar (c : Char) : List Char → Option Nat
  | [] => none
  | a :: rest =>
    match lastIndexOfChar c rest with
    | some i => some (i + 1)
    | none => if a == c then some 0 else none

/-- The root part of `os.path.splitext`: everything before the last dot,
unless every character before that dot is itself a dot (then there is no
extension and the whole name is the root). -/
def splitextRoot (s : String) : String :=
  match lastIndexOfChar '.' s.data with
  | none => s
  | some i =>
    if (s.data.take i).all (fun a => a == '.') then s else String.mk (s.data.take i)

/-- `os.path.basename`, with `/` as the path separator: the characters
after the last slash. -/
def basename (s : String) : String :=
  match lastIndexOfChar '/' s.data with
  | none => s
  | some i => String.mk (s.data.drop (i + 1))

/-- The character list `cs` starts with the pattern `ps`. -/
def leadsWith : List Char → List Char → Bool
  | [], _ => true
  | _ :: _, [] => false
  | p :: ps, c :: cs => p == c && leadsWith ps cs

/-- Python `s.endswith(suffix)`. -/
def pyEndsWith (s suffix : String) : Bool :=
  leadsWith suffix.data.reverse s.data.reverse

/-- Python `s.lower()` (ASCII case folding, all the extensions compared
here are ASCII). -/
def pyLower (s : String) : String := String.mk (s.data.map Char.toLower)

/-- `output_base = os.path.join(output_dir, splitext(basename(pub_path))[0])`
(`convert.py` lines 117-118). -/
def derivedOutputBase (outputDir pubPath : String) : String :=
  outputDir ++ "/" ++ splitextRoot (basename pubPath)

/-- `pub_path.lower().endswith(".pub")` (`convert.py` line 110). -/
def hasPubExtension (p : String) : Bool := pyEndsWith (pyLower p) ".pub"

/-- Outcome of `convert_pub_to_html`: the returned path, or which exception
escapes.  `failed le` models `RuntimeError(f"Failed to convert file after
{max_retries} attempts: {str(last_error)}")`, carrying the last underlying
cause `le`. -/
inductive ConvResult where
  | ok (path : String)
  | fileNotFound (path : String)
  | badExtension
  | failed (lastError : Option PubError)
  deriving DecidableEq

/-- Full observable behaviour of one `convert_pub_to_html` call: result,
final filesystem, external calls made, and number of loop iterations
(attempts) entered. -/
structure ConvOut where
  result : ConvResult
  fs : FS
  events : List Ev
  attempts : Nat

/-- The retry loop of `convert_pub_to_html` (`convert.py` lines 126-209):
`i` is the index of the next attempt, `fuel` the number of remaining
iterations of `range(max_retries)`, `le` the current `last_error`.  A
non-retryable error breaks out of the loop; exhausting the loop falls
through; both end in the terminal `RuntimeError`. -/
def convertLoop (oracle : Nat → AttemptOracle) (outputBase : String) :
    FS → Nat → Nat → Option PubError → ConvOut
  | fs, i, 0, le => { result := .failed le, fs := fs, events := [], attempts := i }
  | fs, i, fuel + 1, _ =>
    let killEvs := if 0 < i then [Ev.killProcs] else []
    let step := runAttempt (oracle i) fs outputBase
    match step.1 with
    | none =>
        { result := .ok (outputBase ++ ".htm"), fs := step.2.1,
          events := killEvs ++ step.2.2, attempts := i + 1 }
    | some e =>
        if retryable e then
          let rest := convertLoop oracle outputBase step.2.1 (i + 1) fuel (some e)
          { result := rest.result, fs := rest.fs,
            events := killEvs ++ step.2.2 ++ rest.events, attempts := rest.attempts }
        else
          { result := .failed (some e), fs := step.2.1,
            events := killEvs ++ step.2.2, attempts := i + 1 }

/-- `convert_pub_to_html` from `convert.py` (lines 89-209): existence
check, extension check, `makedirs`, already-converted short-circuit, then
the bounded retry loop. -/
def convert_pub_to_html (oracle : Nat → AttemptOracle) (fs : FS)
    (pubPath outputDir : String) (maxRetries : Nat) : ConvOut :=
  if !fs.pathExists pubPath then
    { result := .fileNotFound pubPath, fs := fs, events := [], attempts := 0 }
  else if !hasPubExtension pubPath then
    { result := .badExtension, fs := fs, events := [], attempts := 0 }
  else
    let fs1 := fs.mkdirs outputDir
    let outputBase := derivedOutputBase outputDir pubPath
    if check_output_exists fs1 outputBase then
      { result := .ok (outputBase ++ ".htm"), fs := fs1, events := [], attempts := 0 }
    else
      convertLoop oracle outputBase fs1 0 maxRetries none

/-- One step of `os.walk`: a directory of the input tree, identified by its
path relative to the input root (`""` for the root itself), with the names
of the plain files it contains. -/
structure DirEntry where
  rel : String
  files : List String

/-- `f.lower().endswith('.pub')` (`convert_tree_to_pub.py` lines 17, 50). -/
def isPubFile (f : String) : Bool := pyEndsWith (pyLower f) ".pub"

/-- `count_pub_files` from `convert_tree_to_pub.py` (lines 8-20): first
pass over the walk, counting matching files. -/
def count_pub_files (tree : List DirEntry) : Nat :=
  (tree.map (fun d => (d.files.filter isPubFile).length)).sum

/-- `Path(root) / rel`, where pathlib drops a `.`/empty relative part. -/
def joinPath (root rel : String) : String :=
  if rel == "" then root else root ++ "/" ++ rel

/-- Observable behaviour of `convert_directory`: the two counters, the
final filesystem, and every output directory created by `os.makedirs`
during the second pass. -/
structure TreeOut where
  converted : Nat
  skipped : Nat
  fs : FS
  madeDirs : List String

/-- The per-file body of the second pass (`convert_tree_to_pub.py` lines
60-91): skip when the already-converted check passes, otherwise count the
file as converted and run the conversion, whose errors are caught and
logged so that only its filesystem effect survives. -/
def processFile (appOracle : String → Nat → AttemptOracle) (inDir outDir : String)
    (acc : TreeOut) (file : String) : TreeOut :=
  let outputBase := outDir ++ "/" ++ splitextRoot file
  if check_output_exists acc.fs outputBase then
    { acc with skipped := acc.skipped + 1 }
  else
    let conv := convert_pub_to_html (appOracle (inDir ++ "/" ++ file)) acc.fs
      (inDir ++ "/" ++ file) outDir 3
    { acc with converted := acc.converted + 1, fs := conv.fs }

/-- The per-directory body of the second pass (`convert_tree_to_pub.py`
lines 45-91): directories without matching files are only entered and
printed; otherwise the mirrored output directory is created and each
matching file processed. -/
def processDir (appOracle : String → Nat → AttemptOracle)
    (inputPath outputPath : String) (acc : TreeOut) (d : DirEntry) : TreeOut :=
  let pubFiles := d.files.filter isPubFile
  if pubFiles.isEmpty then acc
  else
    let outDir := joinPath outputPath d.rel
    let inDir := joinPath inputPath d.rel
    let acc1 := { acc with fs := acc.fs.mkdirs outDir, madeDirs := acc.madeDirs ++ [outDir] }
    pubFiles.foldl (processFile appOracle inDir outDir) acc1

/-- `convert_directory` from `convert_tree_to_pub.py` (lines 22-102):
input-root existence check, counting pass, early return on zero matches,
else the converting pass; `none` models the `FileNotFoundError` for a
missing input root. -/
def convert_directory (appOracle : String → Nat → AttemptOracle) (fs : FS)
    (tree : List DirEntry) (inputPath outputPath : String) : Option TreeOut :=
  if !fs.pathExists inputPath then none
  else if count_pub_files tree == 0 then
    some { converted := 0, skipped := 0, fs := fs, madeDirs := [] }
  else
    some (tree.foldl (processDir appOracle inputPath outputPath)
      { converted := 0, skipped := 0, fs := fs, madeDirs := [] })

/-- Python `str` of a tuple of integers: `()`, `(1,)`, `(1, 2)`, ... -/
def pyTupleStr (l : List Int) : String :=
  "(" ++ String.intercalate ", " (l.map toString) ++ (if l.length == 1 then ",)" else ")")

/-- The error field set by `test_format_constant` (`explore_formats.py`
lines 106-110): `f"COM Error: {e.excepinfo}"` when the caught exception
carries `excepinfo`, else `str(e)`. -/
def testFormatErrorStr : PubError → String
  | .comError l => "COM Error: " ++ pyTupleStr l
  | .otherError m => m

/-- The fields of a `test_format_constant` result that the
interesting-result filter reads. -/
structure ProbeResult where
  files : List String
  error : Option String

/-- A result as built by `test_format_constant`: `error` is Python `None`
on success, else the formatted string of the caught exception. -/
def mkProbeResult (files : List String) (e : Option PubError) : ProbeResult :=
  { files := files, error := e.map testFormatErrorStr }

/-- The interesting-result filter of `explore_format_constants`
(`explore_formats.py` line 145): keep the result when `result['files']` is
non-empty or `result['error'] != "COM Error: None"` (Python `None` is
never equal to a string). -/
def keepResult (r : ProbeResult) : Bool :=
  !r.files.isEmpty || r.error != some "COM Error: None"

/-! Concrete fixtures used by the witness theorems. -/

/-- An application behaviour where every automation call succeeds but
`SaveAs` writes nothing; never consulted by short-circuiting runs. -/
def oracleInert : Nat → AttemptOracle := fun _ =>
  { dispatchErr := none, securityErr := none, openErr := none, saveErr := none,
    saveEff := id, closeErr := none, quitErr := none }

/-- Tree-walker form of `oracleInert`. -/
def treeOracleInert : String → Nat → AttemptOracle := fun _ => oracleInert

/-- An application behaviour whose `Open` call always raises the transient
modal-dialog COM error. -/
def retryOracle : Nat → AttemptOracle := fun _ =>
  { dispatchErr := none, securityErr := none,
    openErr := some (PubError.comError [0, 0, 0, 0, 0, -2147221457]),
    saveErr := none, saveEff := id, closeErr := none, quitErr := none }

/-- An application behaviour whose `Open` call raises a COM error with a
non-transient code. -/
def abortOracle : Nat → AttemptOracle := fun _ =>
  { dispatchErr := none, securityErr := none,
    openErr := some (PubError.comError [0, 0, 0, 0, 0, -2147467259]),
    saveErr := none, saveEff := id, closeErr := none, quitErr := none }

/-- An attempt where `SaveAs` raises and the cleanup `Close` call also
raises. -/
def oracleCloseFails : AttemptOracle :=
  { dispatchErr := none, securityErr := none, openErr := none,
    saveErr := some (PubError.otherError "SaveAs failed"),
    saveEff := id, closeErr := some (PubError.otherError "Close failed"),
    quitErr := none }

/-- An attempt where `SaveAs` raises and cleanup succeeds. -/
def oracleSaveFails : AttemptOracle :=
  { dispatchErr := none, securityErr := none, openErr := none,
    saveErr := some (PubError.otherError "SaveAs failed"),
    saveEff := id, closeErr := none, quitErr := none }

/-- A filesystem holding only the source document `doc.pub`. -/
def fsPubOnly : FS :=
  { pathExists := fun p => p == "doc.pub",
    pathIsDir := fun _ => false,
    dirList := fun _ => [] }

/-- A filesystem holding only the non-document file `doc.txt`. -/
def fsSrcOnly : FS :=
  { pathExists := fun p => p == "doc.txt",
    pathIsDir := fun _ => false,
    dirList := fun _ => [] }

/-- A filesystem with a complete converted output for `out/doc`. -/
def fsDone : FS :=
  { pathExists := fun p => p == "out/doc.htm" || p == "out/doc_files",
    pathIsDir := fun p => p == "out/doc_files",
    dirList := fun p => if p == "out/doc_files" then ["image1.png"] else [] }

/-- A filesystem with the source `doc.pub` and a complete converted output
for `out/doc`. -/
def fsConverted : FS :=
  { pathExists := fun p => p == "doc.pub" || p == "out/doc.htm" || p == "out/doc_files",
    pathIsDir := fun p => p == "out/doc_files",
    dirList := fun p => if p == "out/doc_files" then ["image1.png"] else [] }

/-- A filesystem with the primary output for `out/doc` but no resource
directory. -/
def fsHtmlOnly : FS :=
  { pathExists := fun p => p == "out/doc.htm",
    pathIsDir := fun _ => false,
    dirList := fun _ => [] }

/-- A filesystem holding an input root `in` with two documents. -/
def fsInRoot : FS :=
  { pathExists := fun p => p == "in" || p == "in/a.pub" || p == "in/sub/b.PUB",
    pathIsDir := fun p => p == "in" || p == "in/sub",
    dirList := fun _ => [] }

/-- An input walk with two matching files (one upper-case extension) and
one non-matching file. -/
def treeTwo : List DirEntry :=
  [{ rel := "", files := ["a.pub", "notes.txt"] }, { rel := "sub", files := ["b.PUB"] }]

/-- A populated input walk with no matching files. -/
def treeNone : List DirEntry :=
  [{ rel := "", files := ["readme.md"] }, { rel := "docs", files := ["x.txt"] }]

/-! Helper lemmas. -/

/-- If validation passes then the skip check passes. -/
lemma check_of_validate_none (fs : FS) (b : String) (h : validate_html fs b = none) :
    check_output_exists fs b = true := by
  unfold validate_html at h
  unfold check_output_exists
  by_cases h1 : fs.pathExists (b ++ ".htm") = true
  · simp only [h1, Bool.not_true, if_neg] at h
    by_cases h2 : fs.pathExists (b ++ "_files") = true
    · by_cases h3 : fs.pathIsDir (b ++ "_files") = true
      · simp only [h2, h3, Bool.not_true, Bool.or_self, if_neg] at h
        by_cases h4 : (fs.dirList (b ++ "_files")).isEmpty = true
        · simp [h4] at h
        · simp only [Bool.not_eq_true] at h4
          simp [h1, h3, h4]
      · simp only [Bool.not_eq_true] at h3
        simp [h2, h3] at h
    · simp only [Bool.not_eq_true] at h2
      simp [h2] at h
  · simp only [Bool.not_eq_true] at h1
    simp [h1] at h

/-- If the skip check passes then validation passes, on any filesystem
where directories exist as paths. -/
lemma validate_none_of_check (fs : FS) (b : String)
    (hwf : ∀ p, fs.pathIsDir p = true → fs.pathExists p = true)
    (h : check_output_exists fs b = true) : validate_html fs b = none := by
  unfold check_output_exists at h
  simp only [Bool.and_eq_true, Bool.not_eq_true'] at h
  obtain ⟨⟨h1, h2⟩, h3⟩ := h
  unfold validate_html
  simp [h1, h2, h3, hwf _ h2]

/-- Validation succeeds exactly when the primary file exists and the
resource directory exists, is a directory and is non-empty. -/
lemma validate_none_iff (fs : FS) (b : String) : validate_html fs b = none ↔
    fs.pathExists (b ++ ".htm") = true ∧ fs.pathExists (b ++ "_files") = true ∧
    fs.pathIsDir (b ++ "_files") = true ∧ (fs.dirList (b ++ "_files")).isEmpty = false := by
  unfold validate_html
  by_cases h1 : fs.pathExists (b ++ ".htm") = true
  · by_cases h2 : fs.pathExists (b ++ "_files") = true
    · by_cases h3 : fs.pathIsDir (b ++ "_files") = true
      · by_cases h4 : (fs.dirList (b ++ "_files")).isEmpty = true
        · simp [h1, h2, h3, h4]
        · simp only [Bool.not_eq_true] at h4
          simp [h1, h2, h3, h4]
      · simp only [Bool.not_eq_true] at h3
        simp [h1, h2, h3]
    · simp only [Bool.not_eq_true] at h2
      simp [h1, h2]
  · simp only [Bool.not_eq_true] at h1
    simp [h1]

/-- An early automation error determines the attempt outcome and leaves the
filesystem unchanged, for every filesystem. -/
lemma runAttempt_of_attemptErr (o : AttemptOracle) (fs : FS) (b : String)
    (e : PubError) (h : attemptErr o = some e) :
    (runAttempt o fs b).1 = some e ∧ (runAttempt o fs b).2.1 = fs := by
  unfold attemptErr at h
  unfold runAttempt
  cases hd : o.dispatchErr with
  | some e1 => simp [hd] at h ⊢; exact h
  | none =>
    cases hs : o.securityErr with
    | some e1 => simp [hd, hs] at h ⊢; exact h
    | none =>
      cases ho : o.openErr with
      | some e1 => simp [hd, hs, ho] at h ⊢; exact h
      | none =>
        cases hv : o.saveErr with
        | some e1 => simp [hd, hs, ho, hv] at h ⊢; exact h
        | none => simp [hd, hs, ho, hv] at h

/-- A successful attempt is one where every automation call succeeded and
the post-save validation passed; the resulting filesystem is the save
effect. -/
lemma runAttempt_success (o : AttemptOracle) (fs : FS) (b : String)
    (h : (runAttempt o fs b).1 = none) :
    (runAttempt o fs b).2.1 = o.saveEff fs ∧ validate_html (o.saveEff fs) b = none := by
  unfold runAttempt at h ⊢
  cases hd : o.dispatchErr with
  | some e1 => simp [hd] at h
  | none =>
    cases hs : o.securityErr with
    | some e1 => simp [hd, hs] at h
    | none =>
      cases ho : o.openErr with
      | some e1 => simp [hd, hs, ho] at h
      | none =>
        cases hv : o.saveErr with
        | some e1 => simp [hd, hs, ho, hv] at h
        | none =>
          cases hvl : validate_html (o.saveEff fs) b with
          | some m => simp [hd, hs, ho, hv, hvl] at h
          | none => simp [hd, hs, ho, hv, hvl]

/-- A formatted tuple always starts with an opening parenthesis. -/
lemma pyTupleStr_head (l : List Int) : (pyTupleStr l).data.head? = some '(' := by
  unfold pyTupleStr
  rw [String.data_append, String.data_append]
  rfl

/-- A formatted COM error string is never the literal `"COM Error: None"`. -/
lemma comErrorStr_ne_literal (l : List Int) :
    testFormatErrorStr (.comError l) ≠ "COM Error: None" := by
  intro h
  unfold testFormatErrorStr at h
  have hsplit : "COM Error: None" = "COM Error: " ++ "None" := by decide
  rw [hsplit] at h
  have hd := congrArg String.data h
  rw [String.data_append, String.data_append] at hd
  have hcancel := List.append_cancel_left hd
  have hh := congrArg List.head? hcancel
  rw [pyTupleStr_head l] at hh
  simp at hh

/-- `makedirs` only adds paths, so a passing skip check keeps passing. -/
lemma check_mkdirs_mono (fs : FS) (d b : String)
    (h : check_output_exists fs b = true) :
    check_output_exists (fs.mkdirs d) b = true := by
  unfold check_output_exists at h ⊢
  unfold FS.mkdirs
  simp only [Bool.and_eq_true, Bool.not_eq_true'] at h ⊢
  obtain ⟨⟨h1, h2⟩, h3⟩ := h
  simp [h1, h2, h3]

/-- When every remaining attempt fails with the transient modal-dialog
code, the loop runs all of them and fails with the last error. -/
lemma convertLoop_all_retryable (oracle : Nat → AttemptOracle) (b : String) :
    ∀ fuel i fs le, 0 < fuel →
      (∀ j, j < fuel → ∃ e, attemptErr (oracle (i + j)) = some e ∧ retryable e = true) →
      (convertLoop oracle b fs i fuel le).attempts = i + fuel ∧
      (convertLoop oracle b fs i fuel le).result =
        .failed (attemptErr (oracle (i + fuel - 1))) := by
  intro fuel
  induction fuel with
  | zero => intro i fs le h; exact absurd h (lt_irrefl 0)
  | succ f ih =>
    intro i fs le _ hall
    obtain ⟨e, he, hr⟩ := hall 0 (Nat.succ_pos f)
    rw [Nat.add_zero] at he
    obtain ⟨h1, h2⟩ := runAttempt_of_attemptErr (oracle i) fs b e he
    simp only [convertLoop, h1, h2, hr, if_pos]
    cases f with
    | zero =>
      refine ⟨by simp [convertLoop], ?_⟩
      simp [convertLoop, he]
    | succ f2 =>
      have hall2 : ∀ j, j < f2 + 1 →
          ∃ e2, attemptErr (oracle (i + 1 + j)) = some e2 ∧ retryable e2 = true := by
        intro j hj
        have := hall (j + 1) (by omega)
        have harith : i + (j + 1) = i + 1 + j := by omega
        rwa [harith] at this
      obtain ⟨ha, hb⟩ := ih (i + 1) fs (some e) (Nat.succ_pos f2) hall2
      refine ⟨?_, ?_⟩
      · rw [ha]; omega
      · rw [hb]
        have harith : i + 1 + (f2 + 1) - 1 = i + (f2 + 1 + 1) - 1 := by omega
        rw [harith]

/-- A returned path from the loop is `outputBase + ".htm"` and the final
filesystem satisfies the skip check. -/
lemma convertLoop_ok (oracle : Nat → AttemptOracle) (b : String) :
    ∀ fuel fs i le p,
      (convertLoop oracle b fs i fuel le).result = .ok p →
      p = b ++ ".htm" ∧
      check_output_exists (convertLoop oracle b fs i fuel le).fs b = true := by
  intro fuel
  induction fuel with
  | zero =>
    intro fs i le p h
    simp only [convertLoop] at h
    exact absurd h (by simp)
  | succ f ih =>
    intro fs i le p h
    simp only [convertLoop] at h ⊢
    cases hs : (runAttempt (oracle i) fs b).1 with
    | none =>
      simp only [hs] at h ⊢
      obtain ⟨hfs, hval⟩ := runAttempt_success (oracle i) fs b hs
      have hp : p = b ++ ".htm" := by
        have := h
        simp at this
        exact this.symm
      refine ⟨hp, ?_⟩
      rw [hfs]
      exact check_of_validate_none _ _ hval
    | some e =>
      simp only [hs] at h ⊢
      by_cases hr : retryable e = true
      · simp only [hr, if_pos] at h ⊢
        exact ih _ _ _ _ h
      · simp only [Bool.not_eq_true] at hr
        simp [hr] at h

/-- A successful `convert_pub_to_html` returns the derived output path, has
a valid extension, and leaves a filesystem satisfying the skip check at the
derived output base. -/
lemma convert_ok (oracle : Nat → AttemptOracle) (fs : FS)
    (pubPath outputDir : String) (n : Nat) (p : String)
    (h : (convert_pub_to_html oracle fs pubPath outputDir n).result = .ok p) :
    p = derivedOutputBase outputDir pubPath ++ ".htm" ∧
    hasPubExtension pubPath = true ∧
    check_output_exists (convert_pub_to_html oracle fs pubPath outputDir n).fs
      (derivedOutputBase outputDir pubPath) = true := by
  unfold convert_pub_to_html at h ⊢
  by_cases hx : fs.pathExists pubPath = true
  · by_cases hext : hasPubExtension pubPath = true
    · simp only [hx, hext, Bool.not_true, Bool.false_eq_true, if_neg, if_false] at h ⊢
      by_cases hc : check_output_exists (fs.mkdirs outputDir)
          (derivedOutputBase outputDir pubPath) = true
      · simp only [hc, if_pos, if_true] at h ⊢
        simp at h
        exact ⟨h.symm, by simp [hext], by simp [hc]⟩
      · simp only [Bool.not_eq_true] at hc
        simp only [hc, Bool.false_eq_true, if_false] at h ⊢
        obtain ⟨hp, hcheck⟩ := convertLoop_ok oracle _ n _ 0 none p h
        exact ⟨hp, by simp [hext], hcheck⟩
    · simp only [Bool.not_eq_true] at hext
      simp [hx, hext] at h
  · simp only [Bool.not_eq_true] at hx
    simp [hx] at h

/-- When the already-converted check passes at entry, the call returns the
output path without consulting the application oracle at all. -/
lemma convert_shortcircuit (oracle : Nat → AttemptOracle) (fs : FS)
    (pubPath outputDir : String) (n : Nat)
    (hex : fs.pathExists pubPath = true) (hext : hasPubExtension pubPath = true)
    (hcheck : check_output_exists (FS.mkdirs fs outputDir)
      (derivedOutputBase outputDir pubPath) = true) :
    convert_pub_to_html oracle fs pubPath outputDir n =
      { result := .ok (derivedOutputBase outputDir pubPath ++ ".htm"),
        fs := FS.mkdirs fs outputDir, events := [], attempts := 0 } := by
  unfold convert_pub_to_html
  simp [hex, hext, hcheck]

/-- Each processed file adds exactly one to the two counters combined. -/
lemma processFile_counts (a : String → Nat → AttemptOracle) (i o : String)
    (acc : TreeOut) (f : String) :
    (processFile a i o acc f).converted + (processFile a i o acc f).skipped =
      acc.converted + acc.skipped + 1 := by
  unfold processFile
  by_cases h : check_output_exists acc.fs (o ++ "/" ++ splitextRoot f) = true
  · simp [h]; omega
  · simp only [Bool.not_eq_true] at h
    simp [h]; omega

/-- Folding the per-file body over a list of files adds its length to the
two counters combined. -/
lemma foldl_processFile_counts (a : String → Nat → AttemptOracle) (i o : String) :
    ∀ (l : List String) (acc : TreeOut),
      (l.foldl (processFile a i o) acc).converted +
        (l.foldl (processFile a i o) acc).skipped =
        acc.converted + acc.skipped + l.length := by
  intro l
  induction l with
  | nil => intro acc; simp
  | cons f t ih =>
    intro acc
    rw [List.foldl_cons, ih, processFile_counts]
    simp
    omega

/-- Each processed directory adds its number of matching files to the two
counters combined. -/
lemma processDir_counts (a : String → Nat → AttemptOracle) (inP outP : String)
    (acc : TreeOut) (d : DirEntry) :
    (processDir a inP outP acc d).converted + (processDir a inP outP acc d).skipped =
      acc.converted + acc.skipped + (d.files.filter isPubFile).length := by
  unfold processDir
  by_cases h : (d.files.filter isPubFile).isEmpty = true
  · rw [List.isEmpty_iff] at h
    simp [h]
  · simp only [Bool.not_eq_true] at h
    simp only [h, Bool.false_eq_true, if_false]
    rw [foldl_processFile_counts]

/-- Folding the per-directory body over the walk adds the first-pass count
to the two counters combined, whatever the application does per file. -/
lemma foldl_processDir_counts (a : String → Nat → AttemptOracle) (inP outP : String) :
    ∀ (t : List DirEntry) (acc : TreeOut),
      (t.foldl (processDir a inP outP) acc).converted +
        (t.foldl (processDir a inP outP) acc).skipped =
        acc.converted + acc.skipped + count_pub_files t := by
  intro t
  induction t with
  | nil => intro acc; simp [count_pub_files]
  | cons d rest ih =>
    intro acc
    rw [List.foldl_cons, ih, processDir_counts]
    unfold count_pub_files
    simp
    omega

/-- The cleanup block always attempts the document close when the document
was acquired. -/
lemma close_mem_cleanupBlock (pubAcq closeFails : Bool) :
    Ev.close ∈ cleanupBlock true pubAcq closeFails := by
  unfold cleanupBlock
  cases closeFails <;> cases pubAcq <;> simp

/-- When the close call does not fail, the cleanup block reaches the
application quit. -/
lemma quit_mem_cleanupBlock (docAcq : Bool) :
    Ev.quit ∈ cleanupBlock docAcq true false := by
  unfold cleanupBlock
  cases docAcq <;> simp

/-- Without a document handle the cleanup block always reaches the
application quit. -/
lemma quit_mem_cleanupBlock_noDoc (closeFails : Bool) :
    Ev.quit ∈ cleanupBlock false true closeFails := by
  unfold cleanupBlock
  simp

/-! Claim theorems. -/

/-- Claim C1: when every attempt raises an error carrying the transient
modal-dialog code, `convert_pub_to_html` makes exactly `max_retries`
attempts and fails terminally with an error embedding the last underlying
cause; when the first attempt raises an error with any other code, or with
no recognizable code, it makes exactly 1 attempt and fails terminally with
that cause. -/
theorem c1_retry_bound (oracle : Nat → AttemptOracle) (fs : FS)
    (pubPath outputDir : String) (maxRetries : Nat)
    (hex : fs.pathExists pubPath = true) (hext : hasPubExtension pubPath = true)
    (hnot : check_output_exists (FS.mkdirs fs outputDir)
      (derivedOutputBase outputDir pubPath) = false)
    (hpos : 0 < maxRetries) :
    ((∀ i, i < maxRetries → ∃ e, attemptErr (oracle i) = some e ∧ retryable e = true) →
      (convert_pub_to_html oracle fs pubPath outputDir maxRetries).attempts = maxRetries ∧
      (convert_pub_to_html oracle fs pubPath outputDir maxRetries).result =
        ConvResult.failed (attemptErr (oracle (maxRetries - 1)))) ∧
    (∀ e, (runAttempt (oracle 0) (FS.mkdirs fs outputDir)
        (derivedOutputBase outputDir pubPath)).1 = some e →
      retryable e = false →
      (convert_pub_to_html oracle fs pubPath outputDir maxRetries).attempts = 1 ∧
      (convert_pub_to_html oracle fs pubPath outputDir maxRetries).result =
        ConvResult.failed (some e)) := by
  have hconv : convert_pub_to_html oracle fs pubPath outputDir maxRetries =
      convertLoop oracle (derivedOutputBase outputDir pubPath)
        (FS.mkdirs fs outputDir) 0 maxRetries none := by
    unfold convert_pub_to_html
    simp [hex, hext, hnot]
  constructor
  · intro hall
    rw [hconv]
    have := convertLoop_all_retryable oracle (derivedOutputBase outputDir pubPath)
      maxRetries 0 (FS.mkdirs fs outputDir) none hpos
      (by intro j hj; simpa using hall j hj)
    simpa using this
  · intro e he hr
    rw [hconv]
    obtain ⟨m, rfl⟩ := Nat.exists_eq_succ_of_ne_zero (Nat.pos_iff_ne_zero.mp hpos)
    simp [convertLoop, he, hr]

/-- Concrete run of the C1 theorem: three attempts all failing with the
modal-dialog code give three attempts and a terminal failure carrying the
last error. -/
theorem c1_witness :
    (convert_pub_to_html retryOracle fsPubOnly "doc.pub" "out" 3).attempts = 3 ∧
    (convert_pub_to_html retryOracle fsPubOnly "doc.pub" "out" 3).result =
      ConvResult.failed (attemptErr (retryOracle 2)) :=
  (c1_retry_bound retryOracle fsPubOnly "doc.pub" "out" 3 (by decide) (by decide)
      (by decide) (by decide)).1
    (fun _ _ => ⟨PubError.comError [0, 0, 0, 0, 0, -2147221457], rfl, by decide⟩)

/-- Claim C2: when the already-converted check passes at entry the call
returns `output_base + ".htm"` with no automation events and zero attempts;
and a second call after a successful first call is such a short-circuit,
returning the same path with no automation events. -/
theorem c2_idempotent (oracle oracle2 : Nat → AttemptOracle) (fs : FS)
    (pubPath outputDir : String) (n n2 : Nat)
    (hex : fs.pathExists pubPath = true) (hext : hasPubExtension pubPath = true) :
    (check_output_exists (FS.mkdirs fs outputDir)
        (derivedOutputBase outputDir pubPath) = true →
      convert_pub_to_html oracle fs pubPath outputDir n =
        { result := ConvResult.ok (derivedOutputBase outputDir pubPath ++ ".htm"),
          fs := FS.mkdirs fs outputDir, events := [], attempts := 0 }) ∧
    (∀ p, (convert_pub_to_html oracle fs pubPath outputDir n).result = ConvResult.ok p →
      ((convert_pub_to_html oracle fs pubPath outputDir n).fs).pathExists pubPath = true →
      convert_pub_to_html oracle2 (convert_pub_to_html oracle fs pubPath outputDir n).fs
          pubPath outputDir n2 =
        { result := ConvResult.ok p,
          fs := FS.mkdirs (convert_pub_to_html oracle fs pubPath outputDir n).fs outputDir,
          events := [], attempts := 0 }) := by
  constructor
  · intro hcheck
    exact convert_shortcircuit oracle fs pubPath outputDir n hex hext hcheck
  · intro p hok hsrc
    obtain ⟨hp, hext1, hcheck⟩ := convert_ok oracle fs pubPath outputDir n p hok
    have hsc := convert_shortcircuit oracle2
      (convert_pub_to_html oracle fs pubPath outputDir n).fs pubPath outputDir n2
      hsrc hext1 (check_mkdirs_mono _ _ _ hcheck)
    rw [hsc, hp]

/-- Concrete run of the C2 theorem: with outputs already present the call
short-circuits, doing no automation work. -/
theorem c2_witness :
    convert_pub_to_html oracleInert fsConverted "doc.pub" "out" 3 =
      { result := ConvResult.ok (derivedOutputBase "out" "doc.pub" ++ ".htm"),
        fs := FS.mkdirs fsConverted "out", events := [], attempts := 0 } :=
  (c2_idempotent oracleInert oracleInert fsConverted "doc.pub" "out" 3 3
    (by decide) (by decide)).1 (by decide)

/-- Claim C3: when the primary output file exists but the sibling resource
directory is absent, not a directory, or empty, `validate_html` raises a
validation error. -/
theorem c3_validation_needs_resources (fs : FS) (b : String)
    (_hprim : fs.pathExists (b ++ ".htm") = true)
    (hbad : fs.pathExists (b ++ "_files") = false ∨
      fs.pathIsDir (b ++ "_files") = false ∨
      (fs.dirList (b ++ "_files")).isEmpty = true) :
    ∃ msg, validate_html fs b = some msg := by
  cases hv : validate_html fs b with
  | some m => exact ⟨m, rfl⟩
  | none =>
    exfalso
    obtain ⟨h1, h2, h3, h4⟩ := (validate_none_iff fs b).mp hv
    rcases hbad with h | h | h <;> simp_all

/-- Concrete run of the C3 theorem: primary file present, resource
directory absent, validation fails. -/
theorem c3_witness : ∃ msg, validate_html fsHtmlOnly "out/doc" = some msg :=
  c3_validation_needs_resources fsHtmlOnly "out/doc" (by decide) (Or.inl (by decide))

/-- Claim C4: on any filesystem where directories exist as paths, the skip
predicate `check_output_exists` returns a truthy value exactly when
`validate_html` does not raise; both only read the filesystem (they are
pure functions of the `FS` state by construction). -/
theorem c4_check_equiv_validate (fs : FS) (b : String)
    (hwf : ∀ p, fs.pathIsDir p = true → fs.pathExists p = true) :
    (check_output_exists fs b = true ↔ validate_html fs b = none) :=
  ⟨fun h => validate_none_of_check fs b hwf h, fun h => check_of_validate_none fs b h⟩

/-- Concrete run of the C4 theorem on a complete converted output. -/
theorem c4_witness :
    check_output_exists fsDone "out/doc" = true ↔ validate_html fsDone "out/doc" = none :=
  c4_check_equiv_validate fsDone "out/doc" (by
    intro p h
    simp only [fsDone] at h ⊢
    simp [h])

/-- Claim C5: for a walk with `N` matching files the two counters returned
by `convert_directory` always sum to `N`, whatever the application does on
each attempted conversion (so `converted = N - skipped` with `skipped` the
number of files passing the visit-time already-converted check, and
per-file conversion errors never abort the walk). -/
theorem c5_walk_counts (a : String → Nat → AttemptOracle) (fs : FS)
    (tree : List DirEntry) (inputPath outputPath : String)
    (hin : fs.pathExists inputPath = true) (hpos : 0 < count_pub_files tree) :
    ∃ out, convert_directory a fs tree inputPath outputPath = some out ∧
      out.skipped ≤ count_pub_files tree ∧
      out.converted = count_pub_files tree - out.skipped ∧
      out.converted + out.skipped = count_pub_files tree := by
  have hne : (count_pub_files tree == 0) = false := by
    simp [Nat.pos_iff_ne_zero.mp hpos]
  refine ⟨tree.foldl (processDir a inputPath outputPath)
      { converted := 0, skipped := 0, fs := fs, madeDirs := [] }, ?_, ?_⟩
  · unfold convert_directory
    simp [hin, hne]
  · have hsum := foldl_processDir_counts a inputPath outputPath tree
      { converted := 0, skipped := 0, fs := fs, madeDirs := [] }
    simp at hsum
    omega

/-- Concrete run of the C5 theorem on a two-document walk. -/
theorem c5_witness :
    ∃ out, convert_directory treeOracleInert fsInRoot treeTwo "in" "out" = some out ∧
      out.skipped ≤ count_pub_files treeTwo ∧
      out.converted = count_pub_files treeTwo - out.skipped ∧
      out.converted + out.skipped = count_pub_files treeTwo :=
  c5_walk_counts treeOracleInert fsInRoot treeTwo "in" "out" (by decide) (by decide)

/-- Claim C6: a walk with zero matching files returns `(0, 0)`, leaves the
filesystem untouched and creates no output directories (the second pass is
never entered). -/
theorem c6_zero_matches (a : String → Nat → AttemptOracle) (fs : FS)
    (tree : List DirEntry) (inputPath outputPath : String)
    (hin : fs.pathExists inputPath = true) (hz : count_pub_files tree = 0) :
    convert_directory a fs tree inputPath outputPath =
      some { converted := 0, skipped := 0, fs := fs, madeDirs := [] } := by
  unfold convert_directory
  simp [hin, hz]

/-- Concrete run of the C6 theorem on a populated walk without matching
files. -/
theorem c6_witness :
    convert_directory treeOracleInert fsInRoot treeNone "in" "out" =
      some { converted := 0, skipped := 0, fs := fsInRoot, madeDirs := [] } :=
  c6_zero_matches treeOracleInert fsInRoot treeNone "in" "out" (by decide) (by decide)

/-- Claim C7: for every source path without the `.pub` extension
(case-insensitive), `convert_pub_to_html` raises a precondition error
before any automation call is made (no events, zero attempts). -/
theorem c7_bad_extension_precondition (oracle : Nat → AttemptOracle) (fs : FS)
    (pubPath outputDir : String) (maxRetries : Nat)
    (hext : hasPubExtension pubPath = false) :
    ((convert_pub_to_html oracle fs pubPath outputDir maxRetries).result =
        ConvResult.fileNotFound pubPath ∨
      (convert_pub_to_html oracle fs pubPath outputDir maxRetries).result =
        ConvResult.badExtension) ∧
    (convert_pub_to_html oracle fs pubPath outputDir maxRetries).events = [] ∧
    (convert_pub_to_html oracle fs pubPath outputDir maxRetries).attempts = 0 := by
  unfold convert_pub_to_html
  by_cases hx : fs.pathExists pubPath = true
  · simp [hx, hext]
  · simp only [Bool.not_eq_true] at hx
    simp [hx]

/-- Concrete run of the C7 theorem: an existing non-`.pub` file is rejected
with no automation work. -/
theorem c7_witness :
    ((convert_pub_to_html oracleInert fsSrcOnly "doc.txt" "out" 3).result =
        ConvResult.fileNotFound "doc.txt" ∨
      (convert_pub_to_html oracleInert fsSrcOnly "doc.txt" "out" 3).result =
        ConvResult.badExtension) ∧
    (convert_pub_to_html oracleInert fsSrcOnly "doc.txt" "out" 3).events = [] ∧
    (convert_pub_to_html oracleInert fsSrcOnly "doc.txt" "out" 3).attempts = 0 :=
  c7_bad_extension_precondition oracleInert fsSrcOnly "doc.txt" "out" 3 (by decide)

/-- Claim C10: the existence check precedes the extension check: a missing
source path raises the file-not-found error even when the extension is also
wrong, and the invalid-extension error implies the path existed. -/
theorem c10_exists_checked_first (oracle : Nat → AttemptOracle) (fs : FS)
    (pubPath outputDir : String) (maxRetries : Nat) :
    (fs.pathExists pubPath = false →
      (convert_pub_to_html oracle fs pubPath outputDir maxRetries).result =
        ConvResult.fileNotFound pubPath) ∧
    ((convert_pub_to_html oracle fs pubPath outputDir maxRetries).result =
        ConvResult.badExtension →
      fs.pathExists pubPath = true) := by
  constructor
  · intro hx
    unfold convert_pub_to_html
    simp [hx]
  · intro hres
    by_cases hx : fs.pathExists pubPath = true
    · exact hx
    · exfalso
      simp only [Bool.not_eq_true] at hx
      unfold convert_pub_to_html at hres
      simp [hx] at hres

/-- Concrete run of the C10 theorem: a missing path without the `.pub`
extension yields the file-not-found error, not the extension error. -/
theorem c10_witness :
    (convert_pub_to_html oracleInert fsSrcOnly "ghost.txt" "out" 3).result =
      ConvResult.fileNotFound "ghost.txt" :=
  (c10_exists_checked_first oracleInert fsSrcOnly "ghost.txt" "out" 3).1 (by decide)

/-- Claim C8 as stated is false: when the document was acquired and its
`Close` call raises, the cleanup blocks (both share one bare `try`) skip
`publisher.Quit()`, so the application handle is never released on that
exit path. -/
theorem c8_counterexample :
    docAcquired oracleCloseFails = true ∧
    Ev.close ∈ (runAttempt oracleCloseFails fsPubOnly "out/doc").2.2 ∧
    Ev.quit ∉ (runAttempt oracleCloseFails fsPubOnly "out/doc").2.2 :=
  ⟨by decide, by decide, by decide⟩

/-- Claim C8 (amended): on every exit path of an attempt the acquired
document's `Close` is attempted; the application `Quit` is attempted
whenever no document close error precedes it (in particular always when
release itself does not fail); and errors of the release calls are
swallowed — the attempt's outcome and filesystem never depend on them. -/
theorem c8_release_on_exit (o : AttemptOracle) (fs : FS) (b : String) :
    (docAcquired o = true → Ev.close ∈ (runAttempt o fs b).2.2) ∧
    (pubAcquired o = true → (docAcquired o = true → o.closeErr = none) →
      Ev.quit ∈ (runAttempt o fs b).2.2) ∧
    (∀ c q, (runAttempt { o with closeErr := c, quitErr := q } fs b).1 =
        (runAttempt o fs b).1 ∧
      (runAttempt { o with closeErr := c, quitErr := q } fs b).2.1 =
        (runAttempt o fs b).2.1) := by
  refine ⟨?_, ?_, ?_⟩
  · intro hdoc
    unfold docAcquired at hdoc
    simp only [Bool.and_eq_true, Option.isNone_iff_eq_none] at hdoc
    obtain ⟨⟨hd, hs⟩, ho⟩ := hdoc
    unfold runAttempt
    simp only [hd, hs, ho]
    cases hv : o.saveErr with
    | some e => simp [close_mem_cleanupBlock]
    | none =>
      cases hvl : validate_html (o.saveEff fs) b with
      | some m => simp [close_mem_cleanupBlock]
      | none => simp [close_mem_cleanupBlock]
  · intro hpub hclose
    unfold pubAcquired at hpub
    simp only [Option.isNone_iff_eq_none] at hpub
    unfold runAttempt
    simp only [hpub]
    cases hs : o.securityErr with
    | some e => simp [quit_mem_cleanupBlock_noDoc]
    | none =>
      cases ho : o.openErr with
      | some e => simp [quit_mem_cleanupBlock_noDoc]
      | none =>
        have hce : o.closeErr = none := by
          apply hclose
          unfold docAcquired
          simp [hpub, hs, ho]
        cases hv : o.saveErr with
        | some e => simp [hce, quit_mem_cleanupBlock]
        | none =>
          cases hvl : validate_html (o.saveEff fs) b with
          | some m => simp [hce, quit_mem_cleanupBlock]
          | none => simp [hce, quit_mem_cleanupBlock]
  · intro c q
    unfold runAttempt
    cases hd : o.dispatchErr with
    | some e => simp [hd]
    | none =>
      cases hs : o.securityErr with
      | some e => simp [hd, hs]
      | none =>
        cases ho : o.openErr with
        | some e => simp [hd, hs, ho]
        | none =>
          cases hv : o.saveErr with
          | some e => simp [hd, hs, ho, hv]
          | none =>
            cases hvl : validate_html (o.saveEff fs) b with
            | some m => simp [hd, hs, ho, hv, hvl]
            | none => simp [hd, hs, ho, hv, hvl]

/-- Concrete run of the amended C8 theorem: a failing `SaveAs` with a
well-behaved cleanup attempts both `Close` and `Quit`. -/
theorem c8_witness :
    Ev.close ∈ (runAttempt oracleSaveFails fsPubOnly "out/doc").2.2 ∧
    Ev.quit ∈ (runAttempt oracleSaveFails fsPubOnly "out/doc").2.2 := by
  have h := c8_release_on_exit oracleSaveFails fsPubOnly "out/doc"
  exact ⟨h.1 (by decide), h.2.1 (by decide) (fun _ => rfl)⟩

/-- Claim C9: the interesting-result filter's comparison against the
literal `"COM Error: None"` never matches the error field produced by
`test_format_constant`: success stores Python `None` (never equal to a
string) and a caught COM error formats its `excepinfo` tuple, which starts
with a parenthesis; so no result whose caught exception message is not the
literal itself is ever discarded. -/
theorem c9_dead_filter (files : List String) (e : Option PubError)
    (h : ∀ m, e = some (PubError.otherError m) → m ≠ "COM Error: None") :
    keepResult (mkProbeResult files e) = true := by
  unfold keepResult mkProbeResult
  cases e with
  | none => simp
  | some pe =>
    cases pe with
    | comError l =>
      have hne := comErrorStr_ne_literal l
      simp [bne_iff_ne, hne]
    | otherError m =>
      have hm := h m rfl
      simp [bne_iff_ne, testFormatErrorStr, hm]

/-- Concrete run of the C9 theorem: an empty file list with a non-transient
COM error is kept by the filter. -/
theorem c9_witness :
    keepResult (mkProbeResult []
      (some (PubError.comError [0, 0, 0, 0, 0, -2147467259]))) = true :=
  c9_dead_filter [] _ (by intro m hm; simp at hm)

end PubToPdf
